import Mathlib

/-
Verification of the core components of the raspi-internet-speed-monitor
repository: the measurement runner (app/speedtest_runner.py), the SQLite
result store (app/database.py), the Google Sheets exporter (app/exporter.py),
the cron scheduler (app/scheduler.py) and the dashboard statistics endpoint
(app/dashboard.py with app/models.py).

Modelling conventions of the shallow embedding:
- Timestamps are integers on a single UTC timeline (seconds); one day is
  86400 seconds.  The SQLite layer stores ISO-8601 text whose lexicographic
  order agrees with chronological order for naive UTC datetimes, so integer
  comparison models the text comparison of the source.
- Python floats are modelled as exact rationals.
- A fallible external effect (a database insert that may raise, the sheets
  append that may raise, the speedtest library call that may raise) is
  modelled as a function returning Option / Except; the value none /
  Except.error stands for the raised exception.
- SQL statements are modelled by their documented semantics: DELETE ... WHERE
  removes exactly the rows matching the predicate, ORDER BY sorts by the key
  (modelled with List.insertionSort), LIMIT with a negative bound returns all
  rows and LIMIT 0 returns none (documented SQLite behaviour).
-/

namespace SpeedMonitor

/-- Mirrors the dataclass SpeedTestResult of app/models.py.  The field id is
populated after database insertion (none beforehand). -/
structure SpeedTestResult where
  timestamp : Int
  download_mbps : ℚ
  upload_mbps : ℚ
  ping_ms : ℚ
  test_server : Option String := none
  success : Bool := true
  error_message : Option String := none
  id : Option Nat := none
deriving Repr, DecidableEq

/-- Raw outcome of a successful run of the external speedtest library:
the dict read in execute_test (download and upload in bits per second,
ping in milliseconds, server host). -/
structure MeasurementRaw where
  download : ℚ
  upload : ℚ
  ping : ℚ
  server_host : Option String
deriving Repr, DecidableEq

/-- Mirrors SpeedtestRunner.execute_test of app/speedtest_runner.py.  The
whole external measurement (server discovery, download, upload) is one
opaque call that either yields a MeasurementRaw or raises; the except branch
of the source becomes the Except.error case here.  The function is total:
every exception of the measurement operation is converted into a failure
record. -/
def execute_test (measure : Except String MeasurementRaw) (now : Int) :
    SpeedTestResult :=
  match measure with
  | Except.ok res =>
      { timestamp := now
        download_mbps := res.download / 1000000
        upload_mbps := res.upload / 1000000
        ping_ms := res.ping
        test_server := res.server_host
        success := true
        error_message := none
        id := none }
  | Except.error exc =>
      { timestamp := now
        download_mbps := 0
        upload_mbps := 0
        ping_ms := 0
        test_server := none
        success := false
        error_message := some exc
        id := none }

/-- The assignment result.id = row_id performed on a successful insert. -/
def setId (r : SpeedTestResult) (rowId : Nat) : SpeedTestResult :=
  { r with id := some rowId }

/-- The retry loop body of SpeedtestRunner.store_result.  The store argument
gives the outcome of db.insert_result on each attempt index: some rowId when
the insert returns a row id, none when it raises.  Returns (success flag,
the record after the loop, the list of sleep durations performed, in
order).  The loop sleeps 2 ^ attempt seconds after a failed attempt that is
not the last one, and never after the last. -/
def storeLoop (store : Nat → Option Nat) (result : SpeedTestResult) :
    Nat → Nat → Bool × SpeedTestResult × List Nat
  | _, 0 => (false, result, [])
  | attempt, remaining + 1 =>
    match store attempt with
    | some rowId => (true, setId result rowId, [])
    | none =>
      if remaining = 0 then
        (false, result, [])
      else
        let rest := storeLoop store result (attempt + 1) remaining
        (rest.1, rest.2.1, 2 ^ attempt :: rest.2.2)

/-- SpeedtestRunner.MAX_RETRIES. -/
def MAX_RETRIES : Nat := 3

/-- Mirrors SpeedtestRunner.store_result: attempts the insert up to retries
times starting at attempt 0. -/
def store_result (result : SpeedTestResult) (store : Nat → Option Nat)
    (retries : Nat) : Bool × SpeedTestResult × List Nat :=
  storeLoop store result 0 retries

/-- Mirrors SpeedtestRunner.run_and_store: execute a test, store the result
with the default retry count, return the (possibly id-updated) record on
storage success and none on storage failure. -/
def run_and_store (measure : Except String MeasurementRaw) (now : Int)
    (store : Nat → Option Nat) : Option SpeedTestResult :=
  let result := execute_test measure now
  let stored := store_result result store MAX_RETRIES
  if stored.1 then some stored.2.1 else none

/-- A concrete record used to instantiate theorems with hypotheses. -/
def sampleResult : SpeedTestResult :=
  { timestamp := 1717200000
    download_mbps := 95
    upload_mbps := 40
    ping_ms := 12
    test_server := some "host.example"
    success := true
    error_message := none
    id := none }

/-- Unfolding step of the retry loop: a successful insert ends the loop at
once with the row id written into the record and no further sleep. -/
theorem storeLoop_success_step (store : Nat → Option Nat)
    (r : SpeedTestResult) (a m j : Nat) (h : store a = some j) :
    storeLoop store r a (m + 1) = (true, setId r j, []) := by
  conv_lhs => rw [storeLoop]
  simp [h]

/-- Unfolding step of the retry loop: a failed insert that is not the last
attempt sleeps 2 ^ a seconds and continues with the next attempt. -/
theorem storeLoop_fail_step (store : Nat → Option Nat) (r : SpeedTestResult)
    (a m : Nat) (h : store a = none) (hm : m ≠ 0) :
    storeLoop store r a (m + 1) =
      ((storeLoop store r (a + 1) m).1, (storeLoop store r (a + 1) m).2.1,
        2 ^ a :: (storeLoop store r (a + 1) m).2.2) := by
  conv_lhs => rw [storeLoop]
  simp [h, hm]

/-- Unfolding step of the retry loop: a failed insert on the last attempt
ends the loop with no sleep and the record unchanged. -/
theorem storeLoop_last_fail (store : Nat → Option Nat) (r : SpeedTestResult)
    (a : Nat) (h : store a = none) :
    storeLoop store r a 1 = (false, r, []) := by
  conv_lhs => rw [storeLoop]
  simp [h]

/-- When every attempt in the window fails, the loop returns false, leaves
the record unchanged, and sleeps after every failed attempt except the
last. -/
theorem storeLoop_all_fail (store : Nat → Option Nat) (r : SpeedTestResult) :
    ∀ n a, (∀ i, i < n → store (a + i) = none) →
      storeLoop store r a n =
        (false, r, (List.range' a (n - 1)).map (fun i => 2 ^ i)) := by
  intro n
  induction n with
  | zero => intro a _; simp [storeLoop]
  | succ m ih =>
    intro a h
    have h0 : store a = none := by simpa using h 0 (Nat.succ_pos m)
    cases m with
    | zero => simp [storeLoop_last_fail store r a h0]
    | succ k =>
      have ih2 := ih (a + 1) (fun i hi => by
        have := h (i + 1) (by omega)
        simpa [Nat.add_right_comm, Nat.add_assoc] using this)
      rw [storeLoop_fail_step store r a (k + 1) h0 (Nat.succ_ne_zero k), ih2]
      simp [List.range'_succ]

/-- When the first k attempts fail and attempt k succeeds (inside the
window), the loop returns true, writes the returned row id into the record,
and has slept exactly k times with durations 2 ^ a, ..., 2 ^ (a + k - 1)
in order. -/
theorem storeLoop_first_success (store : Nat → Option Nat)
    (r : SpeedTestResult) (j : Nat) :
    ∀ k n a, k < n → (∀ i, i < k → store (a + i) = none) →
      store (a + k) = some j →
      storeLoop store r a n =
        (true, setId r j, (List.range' a k).map (fun i => 2 ^ i)) := by
  intro k
  induction k with
  | zero =>
    intro n a hn _ hsucc
    obtain ⟨m, rfl⟩ := Nat.exists_eq_succ_of_ne_zero (Nat.pos_iff_ne_zero.mp hn)
    simp only [Nat.add_zero] at hsucc
    simp [storeLoop_success_step store r a m j hsucc]
  | succ k ih =>
    intro n a hn hfail hsucc
    obtain ⟨m, rfl⟩ := Nat.exists_eq_succ_of_ne_zero
      (Nat.pos_iff_ne_zero.mp (Nat.lt_of_le_of_lt (Nat.zero_le _) hn))
    have h0 : store a = none := by simpa using hfail 0 (Nat.succ_pos k)
    have hm : m ≠ 0 := by omega
    have ih2 := ih m (a + 1) (by omega)
      (fun i hi => by
        have := hfail (i + 1) (by omega)
        simpa [Nat.add_right_comm, Nat.add_assoc] using this)
      (by
        have heq : a + 1 + k = a + (k + 1) := by omega
        rw [heq]; exact hsucc)
    rw [storeLoop_fail_step store r a m h0 hm, ih2]
    simp [List.range'_succ]

/-- C1: store_result with retries = 3, against a store whose insert fails on
the first k attempts (k = 1 or k = 2) and succeeds on attempt k (0-indexed),
returns true with the id of the record populated from the value returned by
the store, performs no sleep after the final (successful) attempt, and
sleeps exactly k times with durations 2 ^ 0, ..., 2 ^ (k - 1) seconds in
that order (1 second for k = 1; 1 then 2 seconds for k = 2). -/
theorem store_result_backoff (r : SpeedTestResult) (store : Nat → Option Nat)
    (k j : Nat) (hk : k = 1 ∨ k = 2)
    (hfail : ∀ i, i < k → store i = none) (hsucc : store k = some j) :
    store_result r store 3 =
      (true, { r with id := some j }, (List.range k).map (fun i => 2 ^ i)) := by
  have hk3 : k < 3 := by rcases hk with h | h <;> omega
  have := storeLoop_first_success store r j k 3 0 hk3
    (fun i hi => by simpa using hfail i hi) (by simpa using hsucc)
  simpa [store_result, setId, List.range_eq_range'] using this

/-- Witness for C1 at k = 1: the store fails attempt 0 and returns row id 5
on attempt 1; the runner sleeps once for 1 second and stores the id. -/
theorem store_result_backoff_witness :
    store_result sampleResult (fun i => if i = 0 then none else some 5) 3 =
      (true, { sampleResult with id := some 5 }, [1]) := by
  have := store_result_backoff sampleResult
    (fun i => if i = 0 then none else some 5) 1 5 (Or.inl rfl)
    (by decide) (by decide)
  simpa using this

/-- C2: execute_test converts every exception of the measurement operation
into a failure record: succeeded is false, the download rate, upload rate
and latency are all zero, and failure_detail carries the message of the
error.  Since execute_test is a total function from the measurement outcome
to a record, no exception propagates to the caller. -/
theorem execute_test_total_failure (exc : String) (now : Int) :
    (execute_test (Except.error exc) now).success = false ∧
    (execute_test (Except.error exc) now).download_mbps = 0 ∧
    (execute_test (Except.error exc) now).upload_mbps = 0 ∧
    (execute_test (Except.error exc) now).ping_ms = 0 ∧
    (execute_test (Except.error exc) now).error_message = some exc :=
  ⟨rfl, rfl, rfl, rfl, rfl⟩

/-- The record produced by execute_test never carries a database id. -/
theorem execute_test_id_none (measure : Except String MeasurementRaw)
    (now : Int) : (execute_test measure now).id = none := by
  cases measure <;> rfl

/-- C8: run_and_store returns none exactly when the record could not be
stored after all 3 attempts, in which case the id of the record threaded
through the retry loop remains unset; when some attempt k < 3 succeeds
(after k initial failures) it returns the measurement record with its id
populated from the store, so a measurement-level failure whose failure
record was stored still yields a non-null return. -/
theorem run_and_store_spec (measure : Except String MeasurementRaw)
    (now : Int) (store : Nat → Option Nat) (k j : Nat) :
    ((∀ i, i < 3 → store i = none) →
        run_and_store measure now store = none ∧
        (store_result (execute_test measure now) store 3).2.1.id = none) ∧
    (k < 3 → (∀ i, i < k → store i = none) → store k = some j →
        run_and_store measure now store =
          some { execute_test measure now with id := some j }) := by
  constructor
  · intro hall
    have hloop := storeLoop_all_fail store (execute_test measure now) 3 0
      (fun i hi => by simpa using hall i hi)
    constructor
    · simp [run_and_store, store_result, MAX_RETRIES, hloop]
    · simp [store_result, hloop, execute_test_id_none]
  · intro hk3 hfail hsucc
    have hloop := storeLoop_first_success store (execute_test measure now) j
      k 3 0 hk3 (fun i hi => by simpa using hfail i hi) (by simpa using hsucc)
    simp [run_and_store, store_result, MAX_RETRIES, hloop, setId]

/-- Witness for C8: a failed measurement whose record is stored on attempt 1
still yields a non-null return carrying id 7, and with a store that always
fails run_and_store returns none. -/
theorem run_and_store_spec_witness :
    run_and_store (Except.error "boom") 0
        (fun i => if i = 0 then none else some 7) =
      some { execute_test (Except.error "boom") 0 with id := some 7 } ∧
    run_and_store (Except.error "boom") 0 (fun _ => none) = none :=
  ⟨(run_and_store_spec (Except.error "boom") 0
      (fun i => if i = 0 then none else some 7) 1 7).2
      (by decide) (by decide) (by decide),
   ((run_and_store_spec (Except.error "boom") 0 (fun _ => none) 0 0).1
      (fun i _ => rfl)).1⟩

/-- Ascending timestamp order, the ORDER BY timestamp ASC key of
Database.query_range in app/database.py. -/
def byTimestamp (a b : SpeedTestResult) : Prop := a.timestamp ≤ b.timestamp

instance : DecidableRel byTimestamp := fun a b =>
  inferInstanceAs (Decidable (a.timestamp ≤ b.timestamp))

instance : IsTotal SpeedTestResult byTimestamp :=
  ⟨fun a b => Int.le_total a.timestamp b.timestamp⟩

instance : IsTrans SpeedTestResult byTimestamp :=
  ⟨fun _ _ _ hab hbc => le_trans hab hbc⟩

/-- Descending timestamp order, the ORDER BY timestamp DESC key of
Database.get_latest in app/database.py. -/
def byTimestampDesc (a b : SpeedTestResult) : Prop := b.timestamp ≤ a.timestamp

instance : DecidableRel byTimestampDesc := fun a b =>
  inferInstanceAs (Decidable (b.timestamp ≤ a.timestamp))

instance : IsTotal SpeedTestResult byTimestampDesc :=
  ⟨fun a b => Int.le_total b.timestamp a.timestamp⟩

instance : IsTrans SpeedTestResult byTimestampDesc :=
  ⟨fun _ _ _ hab hbc => le_trans hbc hab⟩

/-- Mirrors Database.query_range of app/database.py: the SQL statement
SELECT ... WHERE timestamp >= start AND timestamp <= end ORDER BY timestamp
ASC over the stored rows, with ORDER BY modelled as a sort by the
timestamp key. -/
def query_range (rows : List SpeedTestResult) (start finish : Int) :
    List SpeedTestResult :=
  List.insertionSort byTimestamp
    (rows.filter (fun r => start ≤ r.timestamp ∧ r.timestamp ≤ finish))

/-- Mirrors Database.get_latest of app/database.py: SELECT ... ORDER BY
timestamp DESC LIMIT ?.  SQLite treats a negative LIMIT bound as no limit
and LIMIT 0 as returning no rows, so the model takes the whole sorted list
for a negative limit and the first limit.toNat rows otherwise. -/
def get_latest (rows : List SpeedTestResult) (limit : Int) :
    List SpeedTestResult :=
  let sorted := List.insertionSort byTimestampDesc rows
  if limit < 0 then sorted else sorted.take limit.toNat

/-- One day of the integer UTC timeline, matching timedelta(days=...). -/
def secondsPerDay : Int := 86400

/-- Mirrors Database.cleanup_old_data of app/database.py: for a
non-positive retention the function returns 0 without touching the table;
otherwise DELETE FROM speed_tests WHERE timestamp < cutoff with cutoff =
now - retention_days days, returning the rowcount of the delete.  The
result is (returned count, table contents after the call). -/
def cleanup_old_data (rows : List SpeedTestResult) (now : Int)
    (retention_days : Int) : Nat × List SpeedTestResult :=
  if retention_days ≤ 0 then
    (0, rows)
  else
    let cutoff := now - retention_days * secondsPerDay
    ((rows.filter (fun r => r.timestamp < cutoff)).length,
     rows.filter (fun r => ¬ r.timestamp < cutoff))

/-- Splitting a list by a predicate preserves the total length. -/
theorem length_filter_partition {α : Type} (p : α → Bool) (l : List α) :
    (l.filter p).length + (l.filter (fun a => ! p a)).length = l.length := by
  induction l with
  | nil => rfl
  | cons x xs ih => cases h : p x <;> simp [List.filter_cons, h] <;> omega

/-- C4: cleanup_old_data with a non-positive retention returns 0 and leaves
every record in place; with a positive retention d it keeps exactly the
records whose timestamp is at or after now - d days, deletes exactly those
strictly before that cutoff, and the returned count plus the surviving row
count equals the original row count, so the count is the number of records
removed. -/
theorem cleanup_old_data_spec (rows : List SpeedTestResult)
    (now retention_days : Int) :
    (retention_days ≤ 0 →
        cleanup_old_data rows now retention_days = (0, rows)) ∧
    (0 < retention_days →
        (∀ r, r ∈ (cleanup_old_data rows now retention_days).2 ↔
            r ∈ rows ∧ now - retention_days * secondsPerDay ≤ r.timestamp) ∧
        (cleanup_old_data rows now retention_days).1 =
          (rows.filter
            (fun r => r.timestamp < now - retention_days * secondsPerDay)).length ∧
        (cleanup_old_data rows now retention_days).1 +
          (cleanup_old_data rows now retention_days).2.length = rows.length) := by
  constructor
  · intro h
    simp [cleanup_old_data, h]
  · intro h
    have hne : ¬ retention_days ≤ 0 := by omega
    refine ⟨?_, ?_, ?_⟩
    · intro r
      simp [cleanup_old_data, hne, List.mem_filter, Int.not_lt]
    · simp [cleanup_old_data, hne]
    · simp only [cleanup_old_data, hne, if_false, decide_not]
      exact length_filter_partition
        (fun r : SpeedTestResult =>
          decide (r.timestamp < now - retention_days * secondsPerDay)) rows

/-- Witness for C4: on a two-row table with rows aged 100 days and 0 days
relative to now = 100 days, cleanup with 30 days retention deletes exactly
the old row and returns 1, while retention 0 deletes nothing. -/
theorem cleanup_old_data_spec_witness :
    cleanup_old_data [sampleResult] 0 0 = (0, [sampleResult]) ∧
    ({ sampleResult with timestamp := 8640000 } ∈
      (cleanup_old_data
        [{ sampleResult with timestamp := 0 },
         { sampleResult with timestamp := 8640000 }] 8640000 30).2 ↔
      ({ sampleResult with timestamp := 8640000 } ∈
        ([{ sampleResult with timestamp := 0 },
          { sampleResult with timestamp := 8640000 }] :
            List SpeedTestResult) ∧
       8640000 - 30 * secondsPerDay ≤ (8640000 : Int))) :=
  ⟨(cleanup_old_data_spec [sampleResult] 0 0).1 le_rfl,
   ((cleanup_old_data_spec
      [{ sampleResult with timestamp := 0 },
       { sampleResult with timestamp := 8640000 }] 8640000 30).2
      (by decide)).1 { sampleResult with timestamp := 8640000 }⟩

/-- C5: query_range returns a permutation of exactly the stored records
whose timestamp lies in the inclusive window [start, end]: a record is in
the output precisely when it is stored and in the window, the output is
sorted ascending by timestamp, and an empty window (end before start)
yields the empty list. -/
theorem query_range_spec (rows : List SpeedTestResult) (start finish : Int) :
    (query_range rows start finish).Perm
        (rows.filter (fun r => start ≤ r.timestamp ∧ r.timestamp ≤ finish)) ∧
    (∀ r, r ∈ query_range rows start finish ↔
        r ∈ rows ∧ start ≤ r.timestamp ∧ r.timestamp ≤ finish) ∧
    List.Sorted byTimestamp (query_range rows start finish) ∧
    (finish < start → query_range rows start finish = []) := by
  refine ⟨List.perm_insertionSort _ _, ?_,
    List.sorted_insertionSort _ _, ?_⟩
  · intro r
    unfold query_range
    rw [List.Perm.mem_iff (List.perm_insertionSort _ _), List.mem_filter]
    simp
  · intro hlt
    have hnil :
        rows.filter
          (fun r => decide (start ≤ r.timestamp ∧ r.timestamp ≤ finish)) = [] := by
      rw [List.filter_eq_nil_iff]
      intro r _
      simp only [decide_eq_true_eq, not_and]
      intro h1
      omega
    unfold query_range
    rw [hnil]
    rfl

/-- Witness for C5 at the end-to-end example of the spec: three rows at
2024-06-01T00:00, 2024-06-01T12:00 (out of insertion order) and
2024-06-03T00:00; the window up to 2024-06-02T00:00 returns exactly the
first two ascending, and an empty window returns nothing. -/
theorem query_range_spec_witness :
    query_range
        [{ sampleResult with timestamp := 1717243200 },
         { sampleResult with timestamp := 1717200000 },
         { sampleResult with timestamp := 1717372800 }]
        1717200000 1717286400 =
      [{ sampleResult with timestamp := 1717200000 },
       { sampleResult with timestamp := 1717243200 }] ∧
    query_range [sampleResult] 10 0 = [] := by
  refine ⟨by decide, ?_⟩
  exact (query_range_spec [sampleResult] 10 0).2.2.2 (by decide)

/-- C10: get_latest with limit 0 returns the empty list, and with a
negative limit returns all stored rows (a negative LIMIT is unlimited in
SQLite), still ordered descending by timestamp. -/
theorem get_latest_limit_edges (rows : List SpeedTestResult) (limit : Int) :
    get_latest rows 0 = [] ∧
    (limit < 0 →
        (get_latest rows limit).Perm rows ∧
        List.Sorted byTimestampDesc (get_latest rows limit)) := by
  constructor
  · simp [get_latest]
  · intro h
    simp only [get_latest, if_pos h]
    exact ⟨List.perm_insertionSort _ _, List.sorted_insertionSort _ _⟩

/-- Witness for C10: limit -1 on a two-row table returns both rows in
descending timestamp order. -/
theorem get_latest_limit_edges_witness :
    (get_latest
        [{ sampleResult with timestamp := 0 }, sampleResult] (-1)).Perm
      [{ sampleResult with timestamp := 0 }, sampleResult] ∧
    List.Sorted byTimestampDesc
      (get_latest [{ sampleResult with timestamp := 0 }, sampleResult] (-1)) :=
  (get_latest_limit_edges
    [{ sampleResult with timestamp := 0 }, sampleResult] (-1)).2 (by decide)

/-- DEFAULT_CRON of app/scheduler.py. -/
def DEFAULT_CRON : String := "0 * * * *"

/-- Mirrors Scheduler.validate_cron of app/scheduler.py.  The external
croniter.is_valid check (with the except branch that turns an import error
into False) is the opaque total boolean validator is_valid. -/
def validate_cron (is_valid : String → Bool) (expression : String) : Bool :=
  is_valid expression

/-- Mirrors Scheduler._resolve_cron: the expression itself when valid,
otherwise the built-in default. -/
def _resolve_cron (is_valid : String → Bool) (expression : String) : String :=
  if validate_cron is_valid expression then expression else DEFAULT_CRON

/-- The state of a Scheduler after __init__ of app/scheduler.py: only the
resolved cron string matters to the schedule.  The validator is consumed at
construction and is not part of the state, so no later call can re-validate
the expression. -/
structure Scheduler where
  _cron : String
deriving Repr, DecidableEq

/-- Mirrors Scheduler.__init__: resolves the cron expression once and
stores the result. -/
def Scheduler.init (is_valid : String → Bool) (cron : String) : Scheduler :=
  { _cron := _resolve_cron is_valid cron }

/-- Mirrors the cron.split() of Scheduler._build_scheduler: the five trigger
fields handed to the cron trigger are read from the stored resolved string,
with no validator in sight. -/
def Scheduler._build_scheduler (s : Scheduler) : List String :=
  s._cron.splitOn " "

/-- C6: a Scheduler built from a cron string the validator rejects resolves
its schedule to the built-in default "0 * * * *"; one built from a string
the validator accepts resolves to that exact string.  The substitution is
performed once at construction: the stored field is the resolved string,
and the trigger construction reads only that field (its type takes no
validator), so no per-trigger re-validation can occur. -/
theorem scheduler_cron_fallback (is_valid : String → Bool) (expr : String) :
    (is_valid expr = false → (Scheduler.init is_valid expr)._cron = DEFAULT_CRON) ∧
    (is_valid expr = true → (Scheduler.init is_valid expr)._cron = expr) ∧
    (Scheduler.init is_valid expr)._build_scheduler =
      (_resolve_cron is_valid expr).splitOn " " := by
  refine ⟨fun h => ?_, fun h => ?_, rfl⟩
  · simp [Scheduler.init, _resolve_cron, validate_cron, h]
  · simp [Scheduler.init, _resolve_cron, validate_cron, h]

/-- Witness for C6: a validator that rejects everything forces the default,
and one that accepts "*/5 * * * *" keeps it verbatim. -/
theorem scheduler_cron_fallback_witness :
    (Scheduler.init (fun _ => false) "not a cron")._cron = "0 * * * *" ∧
    (Scheduler.init (fun _ => true) "*/5 * * * *")._cron = "*/5 * * * *" :=
  ⟨(scheduler_cron_fallback (fun _ => false) "not a cron").1 rfl,
   (scheduler_cron_fallback (fun _ => true) "*/5 * * * *").2.1 rfl⟩

/-- Rounding of Python round(x, ndigits) on exact rationals: round half to
even at the last kept digit. -/
def roundHalfEven (q : ℚ) : Int :=
  if q - ⌊q⌋ < 1 / 2 then ⌊q⌋
  else if 1 / 2 < q - ⌊q⌋ then ⌊q⌋ + 1
  else if ⌊q⌋ % 2 = 0 then ⌊q⌋ else ⌊q⌋ + 1

/-- Python round(q, ndigits) for a non-negative digit count. -/
def pyRound (ndigits : Nat) (q : ℚ) : ℚ :=
  (roundHalfEven (q * 10 ^ ndigits) : ℚ) / 10 ^ ndigits

/-- The row appended to the sheet by the exporter: timestamp text (kept as
the timestamp itself), rates rounded to 2 decimals, ping rounded to 1. -/
structure SheetRow where
  ts : Int
  download : ℚ
  upload : ℚ
  ping : ℚ
deriving Repr, DecidableEq

/-- The row built from a result in export_result and retry_failed_exports
of app/exporter.py. -/
def rowOf (r : SpeedTestResult) : SheetRow :=
  { ts := r.timestamp
    download := pyRound 2 r.download_mbps
    upload := pyRound 2 r.upload_mbps
    ping := pyRound 1 r.ping_ms }

/-- Mirrors GoogleSheetsExporter.export_result of app/exporter.py acting on
the retry queue state.  The sinkOk argument tells whether the append of the
row of a given record raises (false also covers the not-authenticated
RuntimeError); on failure the record is appended to the queue.  Returns the
boolean result and the new queue. -/
def export_result (sinkOk : SpeedTestResult → Bool)
    (queue : List SpeedTestResult) (r : SpeedTestResult) :
    Bool × List SpeedTestResult :=
  if sinkOk r then (true, queue) else (false, queue ++ [r])

/-- A sequence of export_result calls threaded through the queue state. -/
def export_many (sinkOk : SpeedTestResult → Bool)
    (queue : List SpeedTestResult) (results : List SpeedTestResult) :
    List SpeedTestResult :=
  results.foldl (fun q r => (export_result sinkOk q r).2) queue

/-- Mirrors GoogleSheetsExporter.retry_failed_exports: snapshots the queue,
clears it, retries every snapshotted item once in order, counts successes
and re-appends the items that still fail.  Returns (returned count, queue
after the call). -/
def retry_failed_exports (sinkOk : SpeedTestResult → Bool)
    (queue : List SpeedTestResult) : Nat × List SpeedTestResult :=
  queue.foldl
    (fun acc r => if sinkOk r then (acc.1 + 1, acc.2) else (acc.1, acc.2 ++ [r]))
    (0, [])

/-- The retry fold with a general accumulator: it adds the number of
succeeding items to the count and appends the failing items in order. -/
theorem retry_foldl (sinkOk : SpeedTestResult → Bool)
    (queue : List SpeedTestResult) :
    ∀ n acc, queue.foldl
        (fun acc r =>
          if sinkOk r then (acc.1 + 1, acc.2) else (acc.1, acc.2 ++ [r]))
        (n, acc) =
      (n + (queue.filter (fun r => sinkOk r)).length,
       acc ++ queue.filter (fun r => ! sinkOk r)) := by
  induction queue with
  | nil => intro n acc; simp
  | cons x xs ih =>
    intro n acc
    cases h : sinkOk x
    all_goals simp [List.filter_cons, h, ih, Prod.ext_iff]
    all_goals omega

/-- A run of failing forwards appends every record to the queue in order. -/
theorem export_many_all_fail (sinkOk : SpeedTestResult → Bool) :
    ∀ results queue : List SpeedTestResult,
      (∀ r ∈ results, sinkOk r = false) →
      export_many sinkOk queue results = queue ++ results := by
  intro results
  induction results with
  | nil => intro queue _; simp [export_many]
  | cons x xs ih =>
    intro queue hfail
    have hx : sinkOk x = false := hfail x (List.mem_cons_self x xs)
    have ihx := ih (queue ++ [x])
      (fun r hr => hfail r (List.mem_cons_of_mem x hr))
    simp only [export_many] at ihx ⊢
    rw [List.foldl_cons]
    have hstep : (export_result sinkOk queue x).2 = queue ++ [x] := by
      simp [export_result, hx]
    rw [hstep, ihx, List.append_assoc]
    rfl

/-- C3: N export_result calls that all fail at the sink append exactly the
N records to the retry queue in order, with nothing lost or duplicated;
retry_failed_exports retries every snapshotted item exactly once, returning
the number of successes, keeping exactly the still-failing items (count plus
surviving queue length equals the snapshot length); when every item
succeeds the queue drains to empty. -/
theorem retry_queue_conservation (sinkOk : SpeedTestResult → Bool)
    (queue results : List SpeedTestResult) :
    ((∀ r ∈ results, sinkOk r = false) →
        export_many sinkOk queue results = queue ++ results) ∧
    (retry_failed_exports sinkOk queue).2 =
      queue.filter (fun r => ! sinkOk r) ∧
    (retry_failed_exports sinkOk queue).1 =
      (queue.filter (fun r => sinkOk r)).length ∧
    (retry_failed_exports sinkOk queue).1 +
      (retry_failed_exports sinkOk queue).2.length = queue.length ∧
    ((∀ r ∈ queue, sinkOk r = true) →
        (retry_failed_exports sinkOk queue).2 = []) := by
  have hfold := retry_foldl sinkOk queue 0 []
  refine ⟨fun hfail => export_many_all_fail sinkOk results queue hfail,
    ?_, ?_, ?_, ?_⟩
  · simp [retry_failed_exports, hfold]
  · simp [retry_failed_exports, hfold]
  · have := length_filter_partition (fun r => sinkOk r) queue
    simp only [retry_failed_exports, hfold, List.nil_append]
    simpa using this
  · intro hall
    have : queue.filter (fun r => ! sinkOk r) = [] := by
      rw [List.filter_eq_nil_iff]
      intro r hr
      simp [hall r hr]
    simp [retry_failed_exports, hfold, this]

/-- Witness for C3: two failing forwards grow an empty queue to exactly
those two records, and a drain in which everything succeeds empties a
two-record queue. -/
theorem retry_queue_conservation_witness :
    export_many (fun _ => false) []
        [sampleResult, { sampleResult with timestamp := 0 }] =
      [] ++ [sampleResult, { sampleResult with timestamp := 0 }] ∧
    (retry_failed_exports (fun _ => true)
        [sampleResult, { sampleResult with timestamp := 0 }]).2 = [] :=
  ⟨(retry_queue_conservation (fun _ => false) []
      [sampleResult, { sampleResult with timestamp := 0 }]).1
      (fun _ _ => rfl),
   (retry_queue_conservation (fun _ => true) []
      [sampleResult, { sampleResult with timestamp := 0 }]).2.2.2.2
      (fun _ _ => rfl)⟩

/-- The operations the sink offers.  The exporter only ever builds the
append constructor; the delete and update capabilities exist in the sink
interface (a worksheet) but the claim is that they are never invoked. -/
inductive SinkOp where
  | appendRow : SheetRow → SinkOp
  | deleteRows : Nat → Nat → SinkOp
  | updateCell : Nat → Nat → ℚ → SinkOp
deriving Repr, DecidableEq

/-- Whether a sink operation is an append. -/
def SinkOp.isAppend : SinkOp → Bool
  | appendRow _ => true
  | _ => false

/-- One call into the exporter surface under scrutiny. -/
inductive ExporterCall where
  | exportOne : SpeedTestResult → ExporterCall
  | drain : ExporterCall
deriving Repr

/-- The sink operations a single call invokes, with the queue it leaves
behind: export_result attempts exactly one append of the row of its record
(whether or not the append raises); retry_failed_exports attempts one
append per snapshotted item. -/
def callStep (sinkOk : SpeedTestResult → Bool) (queue : List SpeedTestResult) :
    ExporterCall → List SinkOp × List SpeedTestResult
  | ExporterCall.exportOne r =>
      ([SinkOp.appendRow (rowOf r)], (export_result sinkOk queue r).2)
  | ExporterCall.drain =>
      (queue.map (fun r => SinkOp.appendRow (rowOf r)),
       (retry_failed_exports sinkOk queue).2)

/-- The concatenated sink operations of a whole sequence of exporter calls
starting from a given queue. -/
def traceFrom (sinkOk : SpeedTestResult → Bool) :
    List SpeedTestResult → List ExporterCall → List SinkOp
  | _, [] => []
  | queue, c :: cs =>
    let s := callStep sinkOk queue c
    s.1 ++ traceFrom sinkOk s.2 cs

/-- C7: across every sequence of export_result and retry_failed_exports
calls, from any starting queue and any pattern of sink failures, every
operation invoked on the sink is an append-row operation; no delete-capable
or update-capable operation ever appears in the trace. -/
theorem export_never_deletes (sinkOk : SpeedTestResult → Bool)
    (queue : List SpeedTestResult) (calls : List ExporterCall) :
    ∀ op ∈ traceFrom sinkOk queue calls, op.isAppend = true := by
  induction calls generalizing queue with
  | nil => intro op h; simp [traceFrom] at h
  | cons c cs ih =>
    intro op h
    simp only [traceFrom] at h
    rw [List.mem_append] at h
    rcases h with h | h
    · cases c with
      | exportOne r =>
        simp only [callStep, List.mem_singleton] at h
        subst h
        rfl
      | drain =>
        simp only [callStep, List.mem_map] at h
        obtain ⟨r, _, rfl⟩ := h
        rfl
    · exact ih _ op h

/-- Witness for C7: the single operation of a failing forward of the sample
record is an append. -/
theorem export_never_deletes_witness :
    (SinkOp.appendRow (rowOf sampleResult)).isAppend = true :=
  export_never_deletes (fun _ => false) []
    [ExporterCall.exportOne sampleResult]
    (SinkOp.appendRow (rowOf sampleResult)) (by simp [traceFrom, callStep])

/-- Python sum over rationals. -/
def qsum (l : List ℚ) : ℚ := l.foldl (fun a b => a + b) 0

/-- Python min over a list of rationals (the endpoint only applies it to
nonempty lists; the empty case is a dummy value). -/
def listMin : List ℚ → ℚ
  | [] => 0
  | x :: xs => xs.foldl min x

/-- Python max over a list of rationals (dummy value on the empty list). -/
def listMax : List ℚ → ℚ
  | [] => 0
  | x :: xs => xs.foldl max x

/-- Mirrors the dataclass Statistics of app/models.py. -/
structure Statistics where
  avg_download_mbps : ℚ
  avg_upload_mbps : ℚ
  avg_ping_ms : ℚ
  min_download_mbps : ℚ
  max_download_mbps : ℚ
  min_upload_mbps : ℚ
  max_upload_mbps : ℚ
  min_ping_ms : ℚ
  max_ping_ms : ℚ
  total_tests : Nat
  failed_tests : Nat
  period_start : Int
  period_end : Int
deriving Repr, DecidableEq

/-- The tests.success_rate field of Statistics.to_dict in app/models.py:
(total - failed) / total * 100 rounded to one decimal when total is
positive, 0 otherwise. -/
def Statistics.success_rate (s : Statistics) : ℚ :=
  if 0 < s.total_tests then
    pyRound 1 (((s.total_tests : ℚ) - s.failed_tests) / s.total_tests * 100)
  else 0

/-- Mirrors the get_statistics endpoint of app/dashboard.py (after the date
parameters have parsed): query the range, return null when the range is
empty or holds no successful record, otherwise aggregate over the
successful records only, with total counting all records in range. -/
def get_statistics (table : List SpeedTestResult) (start finish : Int) :
    Option Statistics :=
  let results := query_range table start finish
  if results.isEmpty then none
  else
    let successful := results.filter (fun r => r.success)
    if successful.isEmpty then none
    else
      let downloads := successful.map (fun r => r.download_mbps)
      let uploads := successful.map (fun r => r.upload_mbps)
      let pings := successful.map (fun r => r.ping_ms)
      let failed := results.length - successful.length
      some
        { avg_download_mbps := qsum downloads / downloads.length
          avg_upload_mbps := qsum uploads / uploads.length
          avg_ping_ms := qsum pings / pings.length
          min_download_mbps := listMin downloads
          max_download_mbps := listMax downloads
          min_upload_mbps := listMin uploads
          max_upload_mbps := listMax uploads
          min_ping_ms := listMin pings
          max_ping_ms := listMax pings
          total_tests := results.length
          failed_tests := failed
          period_start := start
          period_end := finish }

/-- The endpoint response: the body together with the HTTP status, which is
200 both for the aggregate object and for the null body. -/
def get_statistics_response (table : List SpeedTestResult)
    (start finish : Int) : Option Statistics × Nat :=
  (get_statistics table start finish, 200)

/-- A failed measurement record for witnesses. -/
def sampleFailure : SpeedTestResult :=
  { timestamp := 1717201000
    download_mbps := 0
    upload_mbps := 0
    ping_ms := 0
    test_server := none
    success := false
    error_message := some "dns failure"
    id := none }

/-- A two-record table (one success, one failure) for witnesses. -/
def sampleTable : List SpeedTestResult := [sampleResult, sampleFailure]

/-- The aggregate object the endpoint computes on sampleTable over the
window [1717200000, 1717300000]. -/
def sampleStats : Statistics :=
  { avg_download_mbps := 95
    avg_upload_mbps := 40
    avg_ping_ms := 12
    min_download_mbps := 95
    max_download_mbps := 95
    min_upload_mbps := 40
    max_upload_mbps := 40
    min_ping_ms := 12
    max_ping_ms := 12
    total_tests := 2
    failed_tests := 1
    period_start := 1717200000
    period_end := 1717300000 }

/-- C9: the statistics endpoint returns null with status 200 whenever the
queried range holds no successful record (in particular on an empty range);
when it returns an aggregate object, the total counts every record in the
range including failures, failed counts the non-successful ones, every
average and min/max is computed over the successful records only, and the
success rate is (total - failed) / total * 100 rounded to one decimal (the
branch for total = 0 yielding 0 is unreachable here since total is
positive whenever an object is returned). -/
theorem stats_spec (table : List SpeedTestResult) (start finish : Int)
    (s : Statistics) :
    ((query_range table start finish).filter (fun r => r.success) = [] →
        get_statistics_response table start finish = (none, 200)) ∧
    (get_statistics table start finish = some s →
        0 < s.total_tests ∧
        s.total_tests = (query_range table start finish).length ∧
        s.failed_tests = s.total_tests -
          ((query_range table start finish).filter (fun r => r.success)).length ∧
        s.success_rate =
          pyRound 1 (((s.total_tests : ℚ) - s.failed_tests) / s.total_tests * 100) ∧
        s.avg_download_mbps =
          qsum (((query_range table start finish).filter (fun r => r.success)).map
              (fun r => r.download_mbps)) /
            (((query_range table start finish).filter (fun r => r.success)).map
              (fun r => r.download_mbps)).length ∧
        s.avg_upload_mbps =
          qsum (((query_range table start finish).filter (fun r => r.success)).map
              (fun r => r.upload_mbps)) /
            (((query_range table start finish).filter (fun r => r.success)).map
              (fun r => r.upload_mbps)).length ∧
        s.avg_ping_ms =
          qsum (((query_range table start finish).filter (fun r => r.success)).map
              (fun r => r.ping_ms)) /
            (((query_range table start finish).filter (fun r => r.success)).map
              (fun r => r.ping_ms)).length ∧
        s.min_download_mbps = listMin
          (((query_range table start finish).filter (fun r => r.success)).map
            (fun r => r.download_mbps)) ∧
        s.max_download_mbps = listMax
          (((query_range table start finish).filter (fun r => r.success)).map
            (fun r => r.download_mbps)) ∧
        s.min_upload_mbps = listMin
          (((query_range table start finish).filter (fun r => r.success)).map
            (fun r => r.upload_mbps)) ∧
        s.max_upload_mbps = listMax
          (((query_range table start finish).filter (fun r => r.success)).map
            (fun r => r.upload_mbps)) ∧
        s.min_ping_ms = listMin
          (((query_range table start finish).filter (fun r => r.success)).map
            (fun r => r.ping_ms)) ∧
        s.max_ping_ms = listMax
          (((query_range table start finish).filter (fun r => r.success)).map
            (fun r => r.ping_ms)) ∧
        s.period_start = start ∧ s.period_end = finish) := by
  constructor
  · intro hnone
    by_cases h1 : (query_range table start finish).isEmpty = true
    · simp [get_statistics_response, get_statistics, h1]
    · simp [get_statistics_response, get_statistics, h1, hnone]
  · intro h
    by_cases h1 : (query_range table start finish).isEmpty = true
    · simp [get_statistics, h1] at h
    · by_cases h2 :
        ((query_range table start finish).filter (fun r => r.success)).isEmpty = true
      · simp [get_statistics, h1, h2] at h
      · have hpos : 0 < (query_range table start finish).length := by
          cases hq : query_range table start finish with
          | nil => rw [hq] at h1; simp at h1
          | cons a l => simp [hq]
        simp only [get_statistics, h1, h2, if_false, Bool.false_eq_true,
          Option.some.injEq] at h
        subst h
        refine ⟨hpos, rfl, rfl, ?_, rfl, rfl, rfl, rfl, rfl, rfl, rfl, rfl,
          rfl, rfl, rfl⟩
        simp [Statistics.success_rate, hpos]

/-- Witness for C9: on the empty table the endpoint answers null with
status 200, and on sampleTable the computed aggregate has total 2; the
hypothesis of each conjunct is discharged by evaluation. -/
theorem stats_spec_witness :
    get_statistics_response ([] : List SpeedTestResult) 0 100 = (none, 200) ∧
    sampleStats.total_tests = (query_range sampleTable 1717200000 1717300000).length :=
  ⟨(stats_spec [] 0 100 sampleStats).1 (by decide),
   ((stats_spec sampleTable 1717200000 1717300000 sampleStats).2
      (by
        have hq : query_range sampleTable 1717200000 1717300000 =
            [sampleResult, sampleFailure] := by decide
        simp [get_statistics, hq, sampleResult, sampleFailure, sampleStats,
          qsum, listMin, listMax])).2.1⟩

end SpeedMonitor
